import Mathlib

/-!
Verification development for the Multi-agent-doc-analyser repository.

The repository ships a React frontend (`frontend/src/App.tsx`,
`frontend/src/types.ts` — which also carries a second, validated variant of
`App.handleAnalysis` — and the `DocumentInput` component) together with a
README describing a FastAPI backend (`backend/app.py`, orchestrator and agent
modules) that is not part of the source tree available here.  The frontend is
embedded directly from the TypeScript source; the backend orchestration layer
is modelled from the specification (each such definition is marked
`Modelled from the spec:` in its doc comment).
-/

namespace DocAnalyser

/-- A selected browser file: its name, declared MIME type and (for text files)
its readable content. -/
structure FileData where
  name : String
  type : String
  content : String
  deriving DecidableEq, Repr

/-- `Array.prototype.join(sep)` of JavaScript on a list of strings:
empty string on `[]`, otherwise the entries interleaved with `sep`. -/
def joinWith (sep : String) : List String → String
  | [] => ""
  | [x] => x
  | x :: y :: xs => x ++ sep ++ joinWith sep (y :: xs)

/-- `String.prototype.trim()` of JavaScript: the string with leading and
trailing whitespace removed. -/
def jsTrim (s : String) : String :=
  ⟨(((s.data.dropWhile Char.isWhitespace).reverse.dropWhile Char.isWhitespace).reverse)⟩

/-- A non-empty string has positive length. -/
theorem length_pos_of_ne_empty (s : String) (h : s ≠ "") : 0 < s.length := by
  cases s with
  | mk data =>
    cases data with
    | nil => exact absurd rfl h
    | cons c cs => simp [String.length]

/-- Joining a non-empty list whose head is non-empty yields a non-empty
string. -/
theorem joinWith_ne_empty (sep : String) (l : List String)
    (hl : l ≠ []) (hall : ∀ x ∈ l, x ≠ "") : joinWith sep l ≠ "" := by
  match l with
  | [] => exact absurd rfl hl
  | [x] =>
    simpa [joinWith] using hall x (by simp)
  | x :: y :: xs =>
    intro hcontra
    have hx : x ≠ "" := hall x (by simp)
    have hlen : 0 < (joinWith sep (x :: y :: xs)).length := by
      have : joinWith sep (x :: y :: xs) = x ++ sep ++ joinWith sep (y :: xs) := rfl
      rw [this]
      have hxpos : 0 < x.length := length_pos_of_ne_empty x hx
      simp [String.length_append]
      omega
    rw [hcontra] at hlen
    simp [String.length] at hlen

/-- Inserting a comma-splice: joining with `","` cannot distinguish a single
entry `a ++ "," ++ b` from the two entries `a`, `b`. -/
theorem joinWith_comma_splice (l1 l2 : List String) (a b : String) :
    joinWith "," (l1 ++ (a ++ "," ++ b) :: l2) = joinWith "," (l1 ++ a :: b :: l2) := by
  induction l1 with
  | nil =>
    cases l2 with
    | nil => simp [joinWith]
    | cons z zs => simp [joinWith, String.append_assoc]
  | cons x xs ih =>
    cases xs with
    | nil =>
      cases l2 with
      | nil => simp [joinWith, String.append_assoc]
      | cons z zs => simp_all [joinWith, String.append_assoc]
    | cons w ws =>
      simp only [List.cons_append] at ih ⊢
      simp [joinWith] at ih ⊢
      rw [ih]

namespace DocumentInput

/-- The `DocumentInput` component state touched by `handleFileUpload`:
the selected file and the textarea contents. -/
structure InputState where
  selectedFile : Option FileData
  text : String
  deriving DecidableEq, Repr

/-- `handleFileUpload` from `components/DocumentInput.tsx` (`src/unnamed/part_000`):
a file whose MIME type is neither `text/plain` nor `application/pdf` is
rejected (alert, early return) before any state update; otherwise the file is
selected and the textarea is filled with the file content for `text/plain`,
or cleared for `application/pdf`. -/
def handleFileUpload (s : InputState) (file : FileData) : InputState :=
  if file.type ≠ "text/plain" ∧ file.type ≠ "application/pdf" then
    s
  else
    let s1 : InputState := { s with selectedFile := some file }
    if file.type = "text/plain" then
      { s1 with text := file.content }
    else
      { s1 with text := "" }

/-- `handleAnalyze` from `components/DocumentInput.tsx` (`src/unnamed/part_000`):
with neither trimmed text nor a selected file it alerts and calls nothing
(`none`); otherwise it invokes `onAnalyze` with the empty string when a file
is selected and with the trimmed text otherwise. -/
def handleAnalyze (text : String) (questions : List String)
    (selectedFile : Option FileData) : Option (String × List String × Option FileData) :=
  if jsTrim text = "" ∧ selectedFile = none then
    none
  else
    some (if selectedFile.isSome then "" else jsTrim text, questions, selectedFile)

end DocumentInput

namespace AppTsx

/-- The network action issued by `handleAnalysis` in `frontend/src/App.tsx`:
either a multipart POST to `/api/analyze-file` (with an optional single
`questions` form field) or a JSON POST to `/api/analyze`. -/
inductive AppAction where
  | fetchAnalyzeFile (file : FileData) (questionsField : Option String)
  | fetchAnalyze (text : String) (questions : List String)
  deriving DecidableEq, Repr

/-- `handleAnalysis` from `frontend/src/App.tsx`: with a file it posts the
file plus, when `questions` is non-empty, one form field `questions` holding
`questions.join(',')`; without a file it posts `text` and `questions`
unchanged as JSON.  No input validation and no blank-question filtering. -/
def handleAnalysis (text : String) (questions : List String)
    (file : Option FileData) : AppAction :=
  match file with
  | some f =>
    .fetchAnalyzeFile f
      (if questions.length > 0 then some (joinWith "," questions) else none)
  | none => .fetchAnalyze text questions

end AppTsx

namespace TypesTs

/-- `AnalysisResult.sentiment` from `frontend/src/types.ts`. -/
structure SentimentJson where
  sentiment : String
  confidence : ℚ
  deriving DecidableEq, Repr

/-- One element of `AnalysisResult.qa` from `frontend/src/types.ts`. -/
structure QAJson where
  question : String
  answer : String
  deriving DecidableEq, Repr

/-- `AnalysisResult.metadata` from `frontend/src/types.ts`; `error` is an
optional field. -/
structure MetadataJson where
  word_count : Nat
  summary_length : Nat
  questions_answered : Nat
  error : Option String
  deriving DecidableEq, Repr

/-- The `AnalysisResult` interface from `frontend/src/types.ts`: the wire
shape of a successful response as the frontend consumes it. -/
structure AnalysisResult where
  summary : String
  sentiment : SentimentJson
  qa : List QAJson
  metadata : MetadataJson
  deriving DecidableEq, Repr

/-- The `AnalyzeRequest` interface from `frontend/src/types.ts`: the JSON
body posted to `/api/analyze`. -/
structure AnalyzeRequest where
  text : String
  questions : List String
  deriving DecidableEq, Repr

/-- The action taken by the validated `handleAnalysis` variant carried in
`frontend/src/types.ts`: a client-side rejection message, a multipart POST of
the file with indexed `questions[i]` fields, or a JSON POST. -/
inductive AnalysisAction where
  | invalidInput (message : String)
  | fetchAnalyzeFile (file : FileData) (fields : List (String × String))
  | fetchAnalyze (body : AnalyzeRequest)
  deriving DecidableEq, Repr

/-- The validated `handleAnalysis` carried in `frontend/src/types.ts`:
rejects empty trimmed text with no file, rejects trimmed text shorter than 50
characters with no file, then posts either the file (questions as indexed
form fields) or the trimmed text with blank questions filtered out. -/
def handleAnalysis (text : String) (questions : List String)
    (file : Option FileData) : AnalysisAction :=
  if jsTrim text = "" ∧ file = none then
    .invalidInput "Please provide text content or upload a file"
  else if (jsTrim text).length < 50 ∧ file = none then
    .invalidInput "Please provide at least 50 characters of text for meaningful analysis"
  else
    match file with
    | some f =>
      .fetchAnalyzeFile f
        (questions.enum.map (fun p => ("questions[" ++ toString p.1 ++ "]", p.2)))
    | none =>
      .fetchAnalyze
        { text := jsTrim text
          questions := questions.filter (fun q => 0 < (jsTrim q).length) }

/-- Whether an `AnalysisAction` issues a network request at all. -/
def issuesFetch : AnalysisAction → Bool
  | .invalidInput _ => false
  | .fetchAnalyzeFile _ _ => true
  | .fetchAnalyze _ => true

end TypesTs

namespace Backend

/-- Modelled from the spec: the failure kinds a capability can report
(`ServiceUnavailable`, `Timeout`), §7 of the spec; the backend agent modules
are not present in the source tree. -/
inductive FailureKind where
  | serviceUnavailable
  | timeout
  deriving DecidableEq, Repr

/-- Modelled from the spec: `CapabilityOutcome<T>` — tagged variant
`Success(value)` or `Failure(kind, message)` (§3). -/
inductive CapabilityOutcome (α : Type) where
  | success (value : α)
  | failure (kind : FailureKind) (message : String)
  deriving DecidableEq, Repr

/-- Modelled from the spec: the three admissible sentiment labels (§3). -/
inductive SentimentLabel where
  | positive
  | negative
  | neutral
  deriving DecidableEq, Repr

/-- Modelled from the spec: `SentimentResult` with `label` and
`confidence` (§3). -/
structure SentimentResult where
  label : SentimentLabel
  confidence : ℚ
  deriving DecidableEq, Repr

/-- Modelled from the spec: `QAEntry` — one question paired with its
answer (§3). -/
structure QAEntry where
  question : String
  answer : String
  deriving DecidableEq, Repr

/-- Modelled from the spec: `AnalysisRequest` — extracted document text plus
an ordered question list (§3). -/
structure AnalysisRequest where
  text : String
  questions : List String
  deriving DecidableEq, Repr

/-- Modelled from the spec: the `metadata` block of an
`AnalysisResponse` (§3). -/
structure ResponseMetadata where
  word_count : Nat
  summary_length : Nat
  questions_answered : Nat
  error : Option String
  deriving DecidableEq, Repr

/-- Modelled from the spec: `AnalysisResponse` (§3). -/
structure AnalysisResponse where
  summary : String
  sentiment : SentimentResult
  qa : List QAEntry
  metadata : ResponseMetadata
  deriving DecidableEq, Repr

/-- Modelled from the spec: recognising a backend label string as one of the
three enumerated sentiment labels (§4.3). -/
def labelOfString : String → Option SentimentLabel
  | "positive" => some .positive
  | "negative" => some .negative
  | "neutral" => some .neutral
  | _ => none

/-- Render a sentiment label as its wire string. -/
def labelToString : SentimentLabel → String
  | .positive => "positive"
  | .negative => "negative"
  | .neutral => "neutral"

/-- Modelled from the spec: parsing the backend classification output into a
`SentimentResult`; an unrecognised label or out-of-range confidence is
normalised locally to `neutral`/`0.0` rather than escalated (§4.3, §3). -/
def normalizeSentiment (rawLabel : String) (rawConfidence : ℚ) : SentimentResult :=
  match labelOfString rawLabel with
  | some l =>
    if 0 ≤ rawConfidence ∧ rawConfidence ≤ 1 then
      { label := l, confidence := rawConfidence }
    else
      { label := .neutral, confidence := 0 }
  | none => { label := .neutral, confidence := 0 }

/-- Modelled from the spec: the summary field produced from the Summarizer
outcome — backend text verbatim on success, the documented placeholder `""`
on failure (§4.1, §4.2). -/
def summaryValue : CapabilityOutcome String → String
  | .success s => s
  | .failure _ _ => ""

/-- Modelled from the spec: the sentiment field produced from the
SentimentAnalyzer outcome — the parsed raw `(label, confidence)` pair on
success, the documented placeholder `neutral`/`0.0` on failure (§4.1, §4.3). -/
def sentimentValue : CapabilityOutcome (String × ℚ) → SentimentResult
  | .success raw => normalizeSentiment raw.1 raw.2
  | .failure _ _ => { label := .neutral, confidence := 0 }

/-- Modelled from the spec: the per-question placeholder answer substituted
when a question's backend call fails (§4.4). -/
def qaPlaceholder : String := "unable to answer"

/-- Modelled from the spec: `AnswerQuestions` — one backend call per
question, a placeholder entry on a failed call, and the pair also counts the
backend calls issued; the empty question list short-circuits with zero
calls (§4.4). -/
def answerQuestions (backend : String → CapabilityOutcome String) :
    List String → List QAEntry × Nat
  | [] => ([], 0)
  | q :: qs =>
    let rest := answerQuestions backend qs
    let entry : QAEntry :=
      match backend q with
      | .success a => { question := q, answer := a }
      | .failure _ _ => { question := q, answer := qaPlaceholder }
    (entry :: rest.1, rest.2 + 1)

/-- Modelled from the spec: the QA field of the response — when the whole QA
capability fails every question receives the placeholder answer; otherwise
the per-question results of `answerQuestions` are used (§4.1, §4.4). -/
def qaValue (qaCap : CapabilityOutcome Unit)
    (backend : String → CapabilityOutcome String) (questions : List String) :
    List QAEntry :=
  match qaCap with
  | .failure _ _ => questions.map (fun q => { question := q, answer := qaPlaceholder })
  | .success _ => (answerQuestions backend questions).1

/-- Modelled from the spec: the metadata note describing a Summarizer
failure (§4.1, §4.5). -/
def summaryNote : CapabilityOutcome String → Option String
  | .success _ => none
  | .failure _ m => some ("Summarizer failed: " ++ m)

/-- Modelled from the spec: the metadata note describing a SentimentAnalyzer
failure (§4.1, §4.5). -/
def sentimentNote : CapabilityOutcome (String × ℚ) → Option String
  | .success _ => none
  | .failure _ m => some ("SentimentAnalyzer failed: " ++ m)

/-- Modelled from the spec: the metadata note describing a QuestionAnswerer
failure (§4.1, §4.5). -/
def qaNote : CapabilityOutcome Unit → Option String
  | .success _ => none
  | .failure _ m => some ("QuestionAnswerer failed: " ++ m)

/-- Modelled from the spec: the capability-failure descriptions present for
this request, in capability order (§4.5). -/
def failureNotes (so : CapabilityOutcome String)
    (se : CapabilityOutcome (String × ℚ)) (qc : CapabilityOutcome Unit) :
    List String :=
  [summaryNote so, sentimentNote se, qaNote qc].filterMap id

/-- Modelled from the spec: `metadata.error` — the concatenated
capability-failure descriptions, absent when all three capabilities
succeeded (§4.5). -/
def metadataError (so : CapabilityOutcome String)
    (se : CapabilityOutcome (String × ℚ)) (qc : CapabilityOutcome Unit) :
    Option String :=
  match failureNotes so se qc with
  | [] => none
  | ns => some (joinWith "; " ns)

/-- Count the maximal non-whitespace runs of a character list; the `inWord`
flag records whether the previous character belonged to a token. -/
def countTokens : List Char → Bool → Nat
  | [], _ => 0
  | c :: cs, inWord =>
    if c.isWhitespace then countTokens cs false
    else (if inWord then 0 else 1) + countTokens cs true

/-- Modelled from the spec: the count of whitespace-delimited tokens of a
string (§4.5). -/
def countWords (text : String) : Nat :=
  countTokens text.data false

/-- Modelled from the spec: the `ResponseAggregator` — a pure function of the
request, the best-effort field values and the error note, deriving the
cross-cutting metadata (§4.5). -/
def aggregate (req : AnalysisRequest) (summary : String)
    (sentiment : SentimentResult) (qa : List QAEntry) (error : Option String) :
    AnalysisResponse :=
  { summary := summary
    sentiment := sentiment
    qa := qa
    metadata :=
      { word_count := countWords req.text
        summary_length := countWords summary
        questions_answered := (qa.filter (fun e => e.answer ≠ qaPlaceholder)).length
        error := error } }

/-- Modelled from the spec: the orchestrator's fan-in on a request that
passed input validation — each capability outcome is mapped to its
best-effort field value and the aggregator builds the response (§4.1). -/
def analyzeValidated (req : AnalysisRequest) (so : CapabilityOutcome String)
    (se : CapabilityOutcome (String × ℚ)) (qc : CapabilityOutcome Unit)
    (qo : String → CapabilityOutcome String) : AnalysisResponse :=
  aggregate req (summaryValue so) (sentimentValue se)
    (qaValue qc qo req.questions) (metadataError so se qc)

/-- Modelled from the spec: the configurable minimum text length, default 50
characters (§4.1). -/
def defaultMinTextLength : Nat := 50

/-- Modelled from the spec: `Analyze` — rejects empty or too-short trimmed
text with `InvalidInput` before any capability is dispatched, and otherwise
always returns a (possibly degraded) response (§4.1, §7). -/
def analyze (minLen : Nat) (req : AnalysisRequest) (so : CapabilityOutcome String)
    (se : CapabilityOutcome (String × ℚ)) (qc : CapabilityOutcome Unit)
    (qo : String → CapabilityOutcome String) :
    Except String AnalysisResponse :=
  if jsTrim req.text = "" then
    .error "InvalidInput: empty text"
  else if (jsTrim req.text).length < minLen then
    .error "InvalidInput: text too short"
  else
    .ok (analyzeValidated req so se qc qo)

/-- Modelled from the spec: serialisation of a backend `AnalysisResponse`
into the wire shape the frontend declares as `AnalysisResult` (§6). -/
def toWire (resp : AnalysisResponse) : TypesTs.AnalysisResult :=
  { summary := resp.summary
    sentiment :=
      { sentiment := labelToString resp.sentiment.label
        confidence := resp.sentiment.confidence }
    qa := resp.qa.map (fun e => { question := e.question, answer := e.answer })
    metadata :=
      { word_count := resp.metadata.word_count
        summary_length := resp.metadata.summary_length
        questions_answered := resp.metadata.questions_answered
        error := resp.metadata.error } }

end Backend

/-! ### Helper lemmas shared by the claim theorems -/

/-- A string of the form `p ++ m` with non-empty `p` is non-empty. -/
theorem append_ne_empty_left (p m : String) (hp : p ≠ "") : p ++ m ≠ "" := by
  intro h
  have hlen := congrArg String.length h
  rw [String.length_append] at hlen
  have h0 : ("" : String).length = 0 := rfl
  have hppos := length_pos_of_ne_empty p hp
  omega

/-- Every capability-failure note is non-empty. -/
theorem failureNotes_all_ne_empty (so : Backend.CapabilityOutcome String)
    (se : Backend.CapabilityOutcome (String × ℚ)) (qc : Backend.CapabilityOutcome Unit) :
    ∀ x ∈ Backend.failureNotes so se qc, x ≠ "" := by
  intro x hx
  simp only [Backend.failureNotes] at hx
  obtain ⟨o, ho, hox⟩ := List.mem_filterMap.mp hx
  simp only [id_eq] at hox
  subst hox
  simp only [List.mem_cons, List.not_mem_nil, or_false] at ho
  rcases ho with ho | ho | ho
  · cases so with
    | success v => simp [Backend.summaryNote] at ho
    | failure k m =>
      simp only [Backend.summaryNote, Option.some.injEq] at ho
      rw [ho]
      exact append_ne_empty_left _ m (by decide)
  · cases se with
    | success v => simp [Backend.sentimentNote] at ho
    | failure k m =>
      simp only [Backend.sentimentNote, Option.some.injEq] at ho
      rw [ho]
      exact append_ne_empty_left _ m (by decide)
  · cases qc with
    | success v => simp [Backend.qaNote] at ho
    | failure k m =>
      simp only [Backend.qaNote, Option.some.injEq] at ho
      rw [ho]
      exact append_ne_empty_left _ m (by decide)

/-- When some capability failed, `metadata.error` is present and non-empty. -/
theorem metadataError_ne_empty_of_notes (so : Backend.CapabilityOutcome String)
    (se : Backend.CapabilityOutcome (String × ℚ)) (qc : Backend.CapabilityOutcome Unit)
    (h : Backend.failureNotes so se qc ≠ []) :
    ∃ e, Backend.metadataError so se qc = some e ∧ e ≠ "" := by
  simp only [Backend.metadataError]
  cases hn : Backend.failureNotes so se qc with
  | nil => exact absurd hn h
  | cons n ns =>
    refine ⟨joinWith "; " (n :: ns), rfl, ?_⟩
    apply joinWith_ne_empty
    · simp
    · intro x hx
      exact failureNotes_all_ne_empty so se qc x (hn ▸ hx)

/-- A failed Summarizer always contributes a note. -/
theorem failureNotes_ne_nil_of_summary_failure (se : Backend.CapabilityOutcome (String × ℚ))
    (qc : Backend.CapabilityOutcome Unit) (k : Backend.FailureKind) (msg : String) :
    Backend.failureNotes (.failure k msg) se qc ≠ [] := by
  cases se <;> cases qc <;>
    simp [Backend.failureNotes, Backend.summaryNote, Backend.sentimentNote, Backend.qaNote]

/-- A failed SentimentAnalyzer always contributes a note. -/
theorem failureNotes_ne_nil_of_sentiment_failure (so : Backend.CapabilityOutcome String)
    (qc : Backend.CapabilityOutcome Unit) (k : Backend.FailureKind) (msg : String) :
    Backend.failureNotes so (.failure k msg) qc ≠ [] := by
  cases so <;> cases qc <;>
    simp [Backend.failureNotes, Backend.summaryNote, Backend.sentimentNote, Backend.qaNote]

/-- A failed QuestionAnswerer always contributes a note. -/
theorem failureNotes_ne_nil_of_qa_failure (so : Backend.CapabilityOutcome String)
    (se : Backend.CapabilityOutcome (String × ℚ)) (k : Backend.FailureKind) (msg : String) :
    Backend.failureNotes so se (.failure k msg) ≠ [] := by
  cases so <;> cases se <;>
    simp [Backend.failureNotes, Backend.summaryNote, Backend.sentimentNote, Backend.qaNote]

/-- The QA entries always carry the input questions, in order, one entry per
question, whatever the per-question outcomes or the capability outcome. -/
theorem qaValue_map_question (qc : Backend.CapabilityOutcome Unit)
    (qo : String → Backend.CapabilityOutcome String) (l : List String) :
    (Backend.qaValue qc qo l).map Backend.QAEntry.question = l := by
  cases qc with
  | failure k m =>
    simp only [Backend.qaValue, List.map_map]
    have hfun : (Backend.QAEntry.question ∘ fun q =>
        ({ question := q, answer := Backend.qaPlaceholder } : Backend.QAEntry))
        = fun q : String => q := rfl
    rw [hfun]
    simp
  | success u =>
    induction l with
    | nil => simp [Backend.qaValue, Backend.answerQuestions]
    | cons q rest ih =>
      simp only [Backend.qaValue, Backend.answerQuestions] at ih ⊢
      cases h : qo q <;> simp [h, ih]

/-- The QA entry list has exactly one entry per question. -/
theorem qaValue_length (qc : Backend.CapabilityOutcome Unit)
    (qo : String → Backend.CapabilityOutcome String) (l : List String) :
    (Backend.qaValue qc qo l).length = l.length := by
  have h := congrArg List.length (qaValue_map_question qc qo l)
  simpa using h

/-- A successful `analyze` result is exactly the fan-in of the three
capability outcomes. -/
theorem analyze_ok_eq (minLen : Nat) (req : Backend.AnalysisRequest)
    (so : Backend.CapabilityOutcome String) (se : Backend.CapabilityOutcome (String × ℚ))
    (qc : Backend.CapabilityOutcome Unit) (qo : String → Backend.CapabilityOutcome String)
    (resp : Backend.AnalysisResponse)
    (h : Backend.analyze minLen req so se qc qo = .ok resp) :
    resp = Backend.analyzeValidated req so se qc qo := by
  by_cases ha : jsTrim req.text = ""
  · simp [Backend.analyze, ha] at h
  · by_cases hb : (jsTrim req.text).length < minLen
    · simp [Backend.analyze, ha, hb] at h
    · simp [Backend.analyze, ha, hb] at h
      exact h.symm

/-- Any `SentimentLabel` is one of the three enumerated values. -/
theorem sentimentLabel_trichotomy (l : Backend.SentimentLabel) :
    l = .positive ∨ l = .negative ∨ l = .neutral := by
  cases l <;> simp

/-- The sentiment confidence produced from any capability outcome lies in
`[0, 1]`. -/
theorem sentimentValue_confidence_bounds (se : Backend.CapabilityOutcome (String × ℚ)) :
    0 ≤ (Backend.sentimentValue se).confidence
    ∧ (Backend.sentimentValue se).confidence ≤ 1 := by
  cases se with
  | failure k m =>
    constructor <;> simp [Backend.sentimentValue]
  | success raw =>
    obtain ⟨l, c⟩ := raw
    simp only [Backend.sentimentValue, Backend.normalizeSentiment]
    cases hl : Backend.labelOfString l with
    | none => constructor <;> simp
    | some lab =>
      by_cases hc : 0 ≤ c ∧ c ≤ 1
      · simp [hc]
      · constructor <;> simp [hc]

/-! ### Claim theorems -/

/-- C10: `handleFileUpload` rejects a file whose MIME type is neither
`text/plain` nor `application/pdf` by returning before any state update, so
`selectedFile` and `text` are unchanged on rejection. -/
theorem c10_invalid_file_type_leaves_state_unchanged (s : DocumentInput.InputState)
    (file : FileData) (h1 : file.type ≠ "text/plain") (h2 : file.type ≠ "application/pdf") :
    DocumentInput.handleFileUpload s file = s := by
  simp [DocumentInput.handleFileUpload, h1, h2]

/-- Witness for C10 at a concrete PNG upload. -/
theorem c10_invalid_file_type_leaves_state_unchanged_witness :
    DocumentInput.handleFileUpload
      { selectedFile := none, text := "draft text" }
      { name := "pic.png", type := "image/png", content := "bytes" }
      = { selectedFile := none, text := "draft text" } :=
  c10_invalid_file_type_leaves_state_unchanged
    { selectedFile := none, text := "draft text" }
    { name := "pic.png", type := "image/png", content := "bytes" }
    (by decide) (by decide)

/-- C8: in `DocumentInput.handleAnalyze`, a selected file makes the component
pass the empty string as text to `onAnalyze` regardless of the textarea
contents; only without a file is the (trimmed) typed text sent. -/
theorem c8_file_selection_discards_typed_text (text : String) (questions : List String)
    (f : FileData) :
    DocumentInput.handleAnalyze text questions (some f) = some ("", questions, some f)
    ∧ DocumentInput.handleAnalyze text questions none =
        (if jsTrim text = "" then none else some (jsTrim text, questions, none)) := by
  constructor
  · simp [DocumentInput.handleAnalyze]
  · by_cases h : jsTrim text = "" <;> simp [DocumentInput.handleAnalyze, h]

/-- C9: the file branch of `AppTsx.handleAnalysis` serialises a non-empty
question list into the single form field `questions` by joining with commas;
the join identifies a comma-containing question with its two halves (so
neither the strings nor their count are recoverable), and blank questions are
not filtered in this branch. -/
theorem c9_file_branch_comma_join_is_lossy (text : String) (qs l1 l2 : List String)
    (a b : String) (f : FileData) (hqs : qs ≠ []) :
    AppTsx.handleAnalysis text qs (some f)
        = .fetchAnalyzeFile f (some (joinWith "," qs))
    ∧ joinWith "," (l1 ++ (a ++ "," ++ b) :: l2) = joinWith "," (l1 ++ a :: b :: l2)
    ∧ (l1 ++ a :: b :: l2).length = (l1 ++ (a ++ "," ++ b) :: l2).length + 1
    ∧ AppTsx.handleAnalysis text ["", "x"] (some f)
        = .fetchAnalyzeFile f (some ",x") := by
  refine ⟨?_, joinWith_comma_splice l1 l2 a b, ?_, ?_⟩
  · have hlen : 0 < qs.length := List.length_pos.mpr hqs
    simp [AppTsx.handleAnalysis, hlen]
  · simp
    omega
  · have hx : joinWith "," [("" : String), "x"] = ",x" := rfl
    simp [AppTsx.handleAnalysis, hx]

/-- Witness for C9 at a concrete question list. -/
theorem c9_file_branch_comma_join_is_lossy_witness :
    AppTsx.handleAnalysis "typed" ["first,second"]
        (some { name := "d.txt", type := "text/plain", content := "c" })
        = .fetchAnalyzeFile { name := "d.txt", type := "text/plain", content := "c" }
            (some (joinWith "," ["first,second"]))
    ∧ joinWith "," ([] ++ ("first" ++ "," ++ "second") :: []) = joinWith "," ([] ++ "first" :: "second" :: [])
    ∧ ([] ++ "first" :: "second" :: ([] : List String)).length
        = ([] ++ ("first" ++ "," ++ "second") :: ([] : List String)).length + 1
    ∧ AppTsx.handleAnalysis "typed" ["", "x"]
        (some { name := "d.txt", type := "text/plain", content := "c" })
        = .fetchAnalyzeFile { name := "d.txt", type := "text/plain", content := "c" }
            (some ",x") :=
  c9_file_branch_comma_join_is_lossy "typed" ["first,second"] [] [] "first" "second"
    { name := "d.txt", type := "text/plain", content := "c" } (by decide)

/-- C3: a request whose trimmed text is shorter than the 50-character minimum
and that supplies no file is rejected client-side before any fetch is issued,
and the modelled backend orchestrator likewise rejects such text with
`InvalidInput` before dispatching any capability. -/
theorem c3_short_text_rejected_before_dispatch (text : String) (qs : List String)
    (req : Backend.AnalysisRequest) (so : Backend.CapabilityOutcome String)
    (se : Backend.CapabilityOutcome (String × ℚ)) (qc : Backend.CapabilityOutcome Unit)
    (qo : String → Backend.CapabilityOutcome String)
    (h : (jsTrim text).length < 50) (h2 : (jsTrim req.text).length < 50) :
    (∃ m, TypesTs.handleAnalysis text qs none = .invalidInput m)
    ∧ TypesTs.issuesFetch (TypesTs.handleAnalysis text qs none) = false
    ∧ ∃ e, Backend.analyze 50 req so se qc qo = .error e := by
  have hfront : ∃ m, TypesTs.handleAnalysis text qs none = .invalidInput m := by
    by_cases he : jsTrim text = ""
    · exact ⟨"Please provide text content or upload a file",
        by simp [TypesTs.handleAnalysis, he]⟩
    · exact ⟨"Please provide at least 50 characters of text for meaningful analysis",
        by simp [TypesTs.handleAnalysis, he, h]⟩
  refine ⟨hfront, ?_, ?_⟩
  · obtain ⟨m, hm⟩ := hfront
    rw [hm]
    rfl
  · by_cases he : jsTrim req.text = ""
    · exact ⟨"InvalidInput: empty text", by simp [Backend.analyze, he]⟩
    · exact ⟨"InvalidInput: text too short", by simp [Backend.analyze, he, h2]⟩

/-- Witness for C3 at a concrete nine-character input. -/
theorem c3_short_text_rejected_before_dispatch_witness :
    (∃ m, TypesTs.handleAnalysis "too short" ["q"] none = .invalidInput m)
    ∧ TypesTs.issuesFetch (TypesTs.handleAnalysis "too short" ["q"] none) = false
    ∧ ∃ e, Backend.analyze 50 { text := "too short", questions := ["q"] }
        (.success "s") (.success ("positive", 1)) (.success ())
        (fun _ => .success "a") = .error e :=
  c3_short_text_rejected_before_dispatch "too short" ["q"]
    { text := "too short", questions := ["q"] }
    (.success "s") (.success ("positive", 1)) (.success ())
    (fun _ => .success "a") (by decide) (by decide)

/-- C2: for a valid text request, the response's QA sequence has exactly one
entry per input question remaining after blank questions are filtered, in the
input order, whatever the per-question outcomes (failed answers are replaced,
never omitted). -/
theorem c2_qa_preserves_filtered_questions (text : String) (qs : List String)
    (body : TypesTs.AnalyzeRequest) (so : Backend.CapabilityOutcome String)
    (se : Backend.CapabilityOutcome (String × ℚ)) (qc : Backend.CapabilityOutcome Unit)
    (qo : String → Backend.CapabilityOutcome String) (resp : Backend.AnalysisResponse)
    (h1 : TypesTs.handleAnalysis text qs none = .fetchAnalyze body)
    (h2 : Backend.analyze 50 { text := body.text, questions := body.questions }
        so se qc qo = .ok resp) :
    resp.qa.length = (qs.filter (fun q => 0 < (jsTrim q).length)).length
    ∧ resp.qa.map Backend.QAEntry.question = qs.filter (fun q => 0 < (jsTrim q).length) := by
  have hbody : body =
      { text := jsTrim text
        questions := qs.filter (fun q => 0 < (jsTrim q).length) } := by
    by_cases he : jsTrim text = ""
    · simp [TypesTs.handleAnalysis, he] at h1
    · by_cases hl : (jsTrim text).length < 50
      · simp [TypesTs.handleAnalysis, he, hl] at h1
      · have hcomp : TypesTs.handleAnalysis text qs none =
            .fetchAnalyze
              { text := jsTrim text
                questions := qs.filter (fun q => 0 < (jsTrim q).length) } := by
          simp [TypesTs.handleAnalysis, he, hl]
        rw [hcomp] at h1
        injection h1 with h1
        exact h1.symm

  have hq : body.questions = qs.filter (fun q => 0 < (jsTrim q).length) := by
    rw [hbody]
  have hresp := analyze_ok_eq 50 _ so se qc qo resp h2
  have hqa : resp.qa = Backend.qaValue qc qo body.questions := by
    rw [hresp]
    rfl
  refine ⟨?_, ?_⟩
  · rw [hqa, qaValue_length, hq]
  · rw [hqa, qaValue_map_question, hq]

/-- Witness for C2 at a concrete request with a blank question and a failing
per-question call. -/
theorem c2_qa_preserves_filtered_questions_witness :
    (Backend.analyzeValidated
        { text := jsTrim "This is a sufficiently long document text for the analysis."
          questions := ["What is it about?", "Why?"] }
        (.success "sum") (.success ("positive", 1)) (.success ())
        (fun q => if q = "Why?" then .failure .timeout "backend down" else .success "ans")).qa.length
      = ((["What is it about?", "  ", "Why?"] : List String).filter
          (fun q => 0 < (jsTrim q).length)).length
    ∧ (Backend.analyzeValidated
        { text := jsTrim "This is a sufficiently long document text for the analysis."
          questions := ["What is it about?", "Why?"] }
        (.success "sum") (.success ("positive", 1)) (.success ())
        (fun q => if q = "Why?" then .failure .timeout "backend down" else .success "ans")).qa.map
          Backend.QAEntry.question
      = (["What is it about?", "  ", "Why?"] : List String).filter
          (fun q => 0 < (jsTrim q).length) :=
  c2_qa_preserves_filtered_questions
    "This is a sufficiently long document text for the analysis."
    ["What is it about?", "  ", "Why?"]
    { text := jsTrim "This is a sufficiently long document text for the analysis."
      questions := ["What is it about?", "Why?"] }
    (.success "sum") (.success ("positive", 1)) (.success ())
    (fun q => if q = "Why?" then .failure .timeout "backend down" else .success "ans")
    (Backend.analyzeValidated
      { text := jsTrim "This is a sufficiently long document text for the analysis."
        questions := ["What is it about?", "Why?"] }
      (.success "sum") (.success ("positive", 1)) (.success ())
      (fun q => if q = "Why?" then .failure .timeout "backend down" else .success "ans"))
    (by decide) rfl

/-- C5: an empty question list short-circuits: the response's QA sequence is
empty, `metadata.questions_answered` is `0`, and `AnswerQuestions` issues
zero backend calls. -/
theorem c5_empty_questions_short_circuit (req : Backend.AnalysisRequest)
    (so : Backend.CapabilityOutcome String) (se : Backend.CapabilityOutcome (String × ℚ))
    (qc : Backend.CapabilityOutcome Unit) (qo : String → Backend.CapabilityOutcome String)
    (resp : Backend.AnalysisResponse)
    (h : req.questions = [])
    (h2 : Backend.analyze 50 req so se qc qo = .ok resp) :
    resp.qa = [] ∧ resp.metadata.questions_answered = 0
    ∧ (Backend.answerQuestions qo req.questions).2 = 0 := by
  have hresp := analyze_ok_eq 50 req so se qc qo resp h2
  subst hresp
  refine ⟨?_, ?_, ?_⟩
  · show Backend.qaValue qc qo req.questions = []
    rw [h]
    cases qc <;> rfl
  · show ((Backend.qaValue qc qo req.questions).filter
        (fun e => e.answer ≠ Backend.qaPlaceholder)).length = 0
    rw [h]
    cases qc <;> rfl
  · rw [h]
    rfl

/-- Witness for C5 at a concrete empty-questions request. -/
theorem c5_empty_questions_short_circuit_witness :
    (Backend.analyzeValidated
        { text := "This is a sufficiently long document text for the analysis."
          questions := [] }
        (.success "sum") (.success ("neutral", 1)) (.success ())
        (fun _ => .success "ans")).qa = []
    ∧ (Backend.analyzeValidated
        { text := "This is a sufficiently long document text for the analysis."
          questions := [] }
        (.success "sum") (.success ("neutral", 1)) (.success ())
        (fun _ => .success "ans")).metadata.questions_answered = 0
    ∧ (Backend.answerQuestions (fun _ => .success "ans")
        ({ text := "This is a sufficiently long document text for the analysis."
           questions := ([] : List String) } : Backend.AnalysisRequest).questions).2 = 0 :=
  c5_empty_questions_short_circuit
    { text := "This is a sufficiently long document text for the analysis."
      questions := [] }
    (.success "sum") (.success ("neutral", 1)) (.success ())
    (fun _ => .success "ans")
    (Backend.analyzeValidated
      { text := "This is a sufficiently long document text for the analysis."
        questions := [] }
      (.success "sum") (.success ("neutral", 1)) (.success ())
      (fun _ => .success "ans"))
    rfl rfl

/-- C4: every response's sentiment label is one of the three enumerated
values with confidence in `[0, 1]`; an unparseable backend label is
normalised locally to `neutral`/`0.0` without raising a capability failure;
and a failed sentiment capability yields `neutral`/`0.0` together with a
non-empty `metadata.error`. -/
theorem c4_sentiment_normalization (req : Backend.AnalysisRequest)
    (so : Backend.CapabilityOutcome String) (se : Backend.CapabilityOutcome (String × ℚ))
    (qc : Backend.CapabilityOutcome Unit) (qo : String → Backend.CapabilityOutcome String)
    (resp : Backend.AnalysisResponse) (lbl : String) (conf : ℚ)
    (k : Backend.FailureKind) (msg : String)
    (h2 : Backend.analyze 50 req so se qc qo = .ok resp)
    (hl : Backend.labelOfString lbl = none) :
    (resp.sentiment.label = .positive ∨ resp.sentiment.label = .negative
        ∨ resp.sentiment.label = .neutral)
    ∧ (0 ≤ resp.sentiment.confidence ∧ resp.sentiment.confidence ≤ 1)
    ∧ Backend.sentimentValue (.success (lbl, conf)) = { label := .neutral, confidence := 0 }
    ∧ Backend.sentimentNote (.success (lbl, conf)) = none
    ∧ (Backend.analyzeValidated req so (.failure k msg) qc qo).sentiment
        = { label := .neutral, confidence := 0 }
    ∧ ∃ e, (Backend.analyzeValidated req so (.failure k msg) qc qo).metadata.error
        = some e ∧ e ≠ "" := by
  have hresp := analyze_ok_eq 50 req so se qc qo resp h2
  subst hresp
  refine ⟨sentimentLabel_trichotomy _, sentimentValue_confidence_bounds se, ?_, rfl, rfl, ?_⟩
  · simp [Backend.sentimentValue, Backend.normalizeSentiment, hl]
  · exact metadataError_ne_empty_of_notes so (.failure k msg) qc
      (failureNotes_ne_nil_of_sentiment_failure so qc k msg)

/-- Witness for C4 at a concrete request with an unrecognised label. -/
theorem c4_sentiment_normalization_witness :
    ((Backend.analyzeValidated
        { text := "This is a sufficiently long document text for the analysis."
          questions := ["q"] }
        (.success "sum") (.success ("positive", 1)) (.success ())
        (fun _ => .success "ans")).sentiment.label = .positive
      ∨ (Backend.analyzeValidated
        { text := "This is a sufficiently long document text for the analysis."
          questions := ["q"] }
        (.success "sum") (.success ("positive", 1)) (.success ())
        (fun _ => .success "ans")).sentiment.label = .negative
      ∨ (Backend.analyzeValidated
        { text := "This is a sufficiently long document text for the analysis."
          questions := ["q"] }
        (.success "sum") (.success ("positive", 1)) (.success ())
        (fun _ => .success "ans")).sentiment.label = .neutral)
    ∧ Backend.sentimentValue (.success ("excited", (3 : ℚ) / 4))
        = { label := .neutral, confidence := 0 }
    ∧ ∃ e, (Backend.analyzeValidated
        { text := "This is a sufficiently long document text for the analysis."
          questions := ["q"] }
        (.success "sum") (.failure .serviceUnavailable "llm down") (.success ())
        (fun _ => .success "ans")).metadata.error = some e ∧ e ≠ "" := by
  have h := c4_sentiment_normalization
    { text := "This is a sufficiently long document text for the analysis."
      questions := ["q"] }
    (.success "sum") (.success ("positive", 1)) (.success ())
    (fun _ => .success "ans")
    (Backend.analyzeValidated
      { text := "This is a sufficiently long document text for the analysis."
        questions := ["q"] }
      (.success "sum") (.success ("positive", 1)) (.success ())
      (fun _ => .success "ans"))
    "excited" ((3 : ℚ) / 4) .serviceUnavailable "llm down" rfl (by decide)
  exact ⟨h.1, h.2.2.1, h.2.2.2.2.2⟩

/-- C1: on a request that passes input validation, a failure of any one
capability still yields a complete `.ok` response: the failed capability's
field is replaced by its documented placeholder, the sibling fields keep
their own outcome-derived values, and `metadata.error` is non-empty and
carries the failed capability's name and message. -/
theorem c1_capability_failure_degrades_gracefully (req : Backend.AnalysisRequest)
    (so : Backend.CapabilityOutcome String) (se : Backend.CapabilityOutcome (String × ℚ))
    (qc : Backend.CapabilityOutcome Unit) (qo : String → Backend.CapabilityOutcome String)
    (k : Backend.FailureKind) (msg : String)
    (hv : ¬ jsTrim req.text = "") (hlen : ¬ (jsTrim req.text).length < 50) :
    (Backend.analyze 50 req (.failure k msg) se qc qo
        = .ok (Backend.analyzeValidated req (.failure k msg) se qc qo))
    ∧ (Backend.analyze 50 req so (.failure k msg) qc qo
        = .ok (Backend.analyzeValidated req so (.failure k msg) qc qo))
    ∧ (Backend.analyze 50 req so se (.failure k msg) qo
        = .ok (Backend.analyzeValidated req so se (.failure k msg) qo))
    ∧ (Backend.analyzeValidated req (.failure k msg) se qc qo).summary = ""
    ∧ (Backend.analyzeValidated req (.failure k msg) se qc qo).sentiment
        = Backend.sentimentValue se
    ∧ (Backend.analyzeValidated req (.failure k msg) se qc qo).qa
        = Backend.qaValue qc qo req.questions
    ∧ ("Summarizer failed: " ++ msg) ∈ Backend.failureNotes (.failure k msg) se qc
    ∧ (∃ e, (Backend.analyzeValidated req (.failure k msg) se qc qo).metadata.error
        = some e ∧ e ≠ "")
    ∧ (Backend.analyzeValidated req so (.failure k msg) qc qo).sentiment
        = { label := .neutral, confidence := 0 }
    ∧ (Backend.analyzeValidated req so (.failure k msg) qc qo).summary
        = Backend.summaryValue so
    ∧ (Backend.analyzeValidated req so (.failure k msg) qc qo).qa
        = Backend.qaValue qc qo req.questions
    ∧ ("SentimentAnalyzer failed: " ++ msg) ∈ Backend.failureNotes so (.failure k msg) qc
    ∧ (∃ e, (Backend.analyzeValidated req so (.failure k msg) qc qo).metadata.error
        = some e ∧ e ≠ "")
    ∧ (Backend.analyzeValidated req so se (.failure k msg) qo).qa
        = req.questions.map (fun q => { question := q, answer := Backend.qaPlaceholder })
    ∧ (Backend.analyzeValidated req so se (.failure k msg) qo).summary
        = Backend.summaryValue so
    ∧ (Backend.analyzeValidated req so se (.failure k msg) qo).sentiment
        = Backend.sentimentValue se
    ∧ ("QuestionAnswerer failed: " ++ msg) ∈ Backend.failureNotes so se (.failure k msg)
    ∧ (∃ e, (Backend.analyzeValidated req so se (.failure k msg) qo).metadata.error
        = some e ∧ e ≠ "") := by
  refine ⟨?_, ?_, ?_, rfl, rfl, rfl, ?_, ?_, rfl, rfl, rfl, ?_, ?_, rfl, rfl, rfl, ?_, ?_⟩
  · simp [Backend.analyze, hv, hlen]
  · simp [Backend.analyze, hv, hlen]
  · simp [Backend.analyze, hv, hlen]
  · cases se <;> cases qc <;>
      simp [Backend.failureNotes, Backend.summaryNote, Backend.sentimentNote, Backend.qaNote]
  · exact metadataError_ne_empty_of_notes (.failure k msg) se qc
      (failureNotes_ne_nil_of_summary_failure se qc k msg)
  · cases so <;> cases qc <;>
      simp [Backend.failureNotes, Backend.summaryNote, Backend.sentimentNote, Backend.qaNote]
  · exact metadataError_ne_empty_of_notes so (.failure k msg) qc
      (failureNotes_ne_nil_of_sentiment_failure so qc k msg)
  · cases so <;> cases se <;>
      simp [Backend.failureNotes, Backend.summaryNote, Backend.sentimentNote, Backend.qaNote]
  · exact metadataError_ne_empty_of_notes so se (.failure k msg)
      (failureNotes_ne_nil_of_qa_failure so se k msg)

/-- Witness for C1: with a failed Summarizer on a valid concrete request the
orchestrator still answers `.ok` with the fan-in response. -/
theorem c1_capability_failure_degrades_gracefully_witness :
    Backend.analyze 50
      { text := "This is a sufficiently long document text for the analysis."
        questions := ["q"] }
      (.failure .serviceUnavailable "llm down") (.success ("positive", 1)) (.success ())
      (fun _ => .success "ans")
      = .ok (Backend.analyzeValidated
          { text := "This is a sufficiently long document text for the analysis."
            questions := ["q"] }
          (.failure .serviceUnavailable "llm down") (.success ("positive", 1)) (.success ())
          (fun _ => .success "ans")) :=
  (c1_capability_failure_degrades_gracefully
    { text := "This is a sufficiently long document text for the analysis."
      questions := ["q"] }
    (.success "sum") (.success ("positive", 1)) (.success ())
    (fun _ => .success "ans") .serviceUnavailable "llm down"
    (by decide) (by decide)).1

/-- C6: the `ResponseAggregator` is pure: `word_count` is the
whitespace-token count of the request text, `questions_answered` counts the
QA entries whose answer is not the failure placeholder, and identical inputs
give identical output. -/
theorem c6_aggregator_deterministic_metadata (req req2 : Backend.AnalysisRequest)
    (s s2 : String) (st st2 : Backend.SentimentResult)
    (qa qa2 : List Backend.QAEntry) (err err2 : Option String)
    (hreq : req = req2) (hs : s = s2) (hst : st = st2) (hqa : qa = qa2)
    (herr : err = err2) :
    (Backend.aggregate req s st qa err).metadata.word_count = Backend.countWords req.text
    ∧ (Backend.aggregate req s st qa err).metadata.summary_length = Backend.countWords s
    ∧ (Backend.aggregate req s st qa err).metadata.questions_answered
        = (qa.filter (fun e => e.answer ≠ Backend.qaPlaceholder)).length
    ∧ Backend.aggregate req s st qa err = Backend.aggregate req2 s2 st2 qa2 err2 := by
  subst hreq
  subst hs
  subst hst
  subst hqa
  subst herr
  exact ⟨rfl, rfl, rfl, rfl⟩

/-- Witness for C6 at a concrete aggregation. -/
theorem c6_aggregator_deterministic_metadata_witness :
    (Backend.aggregate { text := "one two  three", questions := ["q"] } "a summary"
        { label := .positive, confidence := 1 }
        [{ question := "q", answer := "ans" }] none).metadata.word_count
      = Backend.countWords ({ text := "one two  three", questions := ["q"] } :
          Backend.AnalysisRequest).text
    ∧ (Backend.aggregate { text := "one two  three", questions := ["q"] } "a summary"
        { label := .positive, confidence := 1 }
        [{ question := "q", answer := "ans" }] none)
      = Backend.aggregate { text := "one two  three", questions := ["q"] } "a summary"
        { label := .positive, confidence := 1 }
        [{ question := "q", answer := "ans" }] none := by
  have h := c6_aggregator_deterministic_metadata
    { text := "one two  three", questions := ["q"] }
    { text := "one two  three", questions := ["q"] }
    "a summary" "a summary"
    { label := .positive, confidence := 1 } { label := .positive, confidence := 1 }
    [{ question := "q", answer := "ans" }] [{ question := "q", answer := "ans" }]
    none none rfl rfl rfl rfl rfl
  exact ⟨h.1, h.2.2.2⟩

/-- C7: every successful response, serialised to the wire, has exactly the
shape the frontend `AnalysisResult` type declares: a summary string, a
sentiment object with `sentiment` (one of the three labels) and `confidence`,
a qa array of question/answer pairs, and the four metadata fields. -/
theorem c7_wire_contract_matches_frontend_type (minLen : Nat)
    (req : Backend.AnalysisRequest) (so : Backend.CapabilityOutcome String)
    (se : Backend.CapabilityOutcome (String × ℚ)) (qc : Backend.CapabilityOutcome Unit)
    (qo : String → Backend.CapabilityOutcome String) (resp : Backend.AnalysisResponse)
    (_h : Backend.analyze minLen req so se qc qo = .ok resp) :
    (Backend.toWire resp).summary = resp.summary
    ∧ (Backend.toWire resp).sentiment.sentiment = Backend.labelToString resp.sentiment.label
    ∧ ((Backend.toWire resp).sentiment.sentiment = "positive"
        ∨ (Backend.toWire resp).sentiment.sentiment = "negative"
        ∨ (Backend.toWire resp).sentiment.sentiment = "neutral")
    ∧ (Backend.toWire resp).sentiment.confidence = resp.sentiment.confidence
    ∧ (Backend.toWire resp).qa
        = resp.qa.map (fun e => { question := e.question, answer := e.answer })
    ∧ (Backend.toWire resp).metadata.word_count = resp.metadata.word_count
    ∧ (Backend.toWire resp).metadata.summary_length = resp.metadata.summary_length
    ∧ (Backend.toWire resp).metadata.questions_answered = resp.metadata.questions_answered
    ∧ (Backend.toWire resp).metadata.error = resp.metadata.error := by
  refine ⟨rfl, rfl, ?_, rfl, rfl, rfl, rfl, rfl, rfl⟩
  cases hl : resp.sentiment.label <;>
    simp [Backend.toWire, Backend.labelToString, hl]

/-- Witness for C7 at a concrete successful response. -/
theorem c7_wire_contract_matches_frontend_type_witness :
    (Backend.toWire (Backend.analyzeValidated
        { text := "This is a sufficiently long document text for the analysis."
          questions := ["q"] }
        (.success "sum") (.success ("positive", 1)) (.success ())
        (fun _ => .success "ans"))).sentiment.sentiment = "positive"
      ∨ (Backend.toWire (Backend.analyzeValidated
        { text := "This is a sufficiently long document text for the analysis."
          questions := ["q"] }
        (.success "sum") (.success ("positive", 1)) (.success ())
        (fun _ => .success "ans"))).sentiment.sentiment = "negative"
      ∨ (Backend.toWire (Backend.analyzeValidated
        { text := "This is a sufficiently long document text for the analysis."
          questions := ["q"] }
        (.success "sum") (.success ("positive", 1)) (.success ())
        (fun _ => .success "ans"))).sentiment.sentiment = "neutral" :=
  (c7_wire_contract_matches_frontend_type 50
    { text := "This is a sufficiently long document text for the analysis."
      questions := ["q"] }
    (.success "sum") (.success ("positive", 1)) (.success ())
    (fun _ => .success "ans")
    (Backend.analyzeValidated
      { text := "This is a sufficiently long document text for the analysis."
        questions := ["q"] }
      (.success "sum") (.success ("positive", 1)) (.success ())
      (fun _ => .success "ans")) rfl).2.2.1

end DocAnalyser
